import Mathlib

/-!
Shallow embedding of `cliupdater.go` (package `cliupdater`).

The Go code is effectful: it reads and writes sibling files of the target
binary, issues HTTP HEAD/GET requests, and runs the downloaded binary as a
subprocess. The embedding makes all of that explicit:

* the filesystem is an association list from path (`String`) to a file's
  content (`List Nat`, bytes) and modification time;
* time instants (`time.Time`) and durations (`time.Duration`) are integer
  nanoseconds; the zero `time.Time` is modelled as instant `0`;
* the network is an oracle `String → Except String Response` mapping the
  requested URL to either a transport error or a response; the outcome
  records which URL, if any, was fetched;
* the validation subprocess (`exec.Command(updatePath, applyArgs...).Run()`)
  is an oracle `Except String Unit`; the subprocess is assumed not to touch
  the modelled files;
* fallible OS calls that can fail for reasons outside the modelled state
  (permission errors on stat/write/open/close/remove) are driven by lists of
  "bad" paths in the world.
-/

namespace Cliupdater

/-- `DefaultCheckInterval = 24 * time.Hour`, in nanoseconds. -/
def DefaultCheckInterval : Int := 24 * 3600 * 1000000000

def checkSuffix : String := ".check"

def downloadSuffix : String := ".download"

def backupSuffix : String := ".backup"

/-- `strings.Title` on one rune: uppercase letters that begin a word.
`Char.isAlpha`/`Char.toUpper` are ASCII-only, which covers the Go OS names
("linux", "darwin", ...) this is applied to. The boolean says whether the
next character starts a word (start of string or preceded by a non-letter). -/
def titleAux : Bool → List Char → List Char
  | _, [] => []
  | start, c :: rest =>
    (if start then c.toUpper else c) :: titleAux (!c.isAlpha) rest

/-- `func goosToUname(goos string) string { return strings.Title(goos) }` -/
def goosToUname (goos : String) : String :=
  String.mk (titleAux true goos.data)

/-- `var unameArches = map[string]string{"amd64": "x86_64"}` -/
def unameArches : List (String × String) := [("amd64", "x86_64")]

/-- `func goarchToUname(goarch string) string { return unameArches[goarch] }`;
a missing key yields the Go zero value, the empty string. -/
def goarchToUname (goarch : String) : String :=
  (unameArches.lookup goarch).getD ""

/-- The `Updater` struct. `Logf` is a function pointer in Go; only whether it
is nil is observable to the control flow, so it is modelled by `LogfSet`. -/
structure Updater where
  BaseURL : String
  Path : String
  CheckInterval : Int
  LogfSet : Bool
  ApplyArgs : List String
  deriving DecidableEq, Repr

/-- The `Metadata` struct: `Updated time.Time` and `Diff time.Duration`,
both in nanoseconds. -/
structure Metadata where
  Updated : Int
  Diff : Int
  deriving DecidableEq, Repr

/-- The zero `Metadata{}` value returned when no check is performed. -/
def Metadata.zero : Metadata := ⟨0, 0⟩

/-- `func (u Metadata) Outdated() bool { return u.Diff > 0 }` -/
def Metadata.Outdated (u : Metadata) : Bool := decide (0 < u.Diff)

/- `func (u Metadata) DaysOld() int { return int(u.Diff.Hours()/24 + 0.5) }`
is deliberately not embedded: it is an IEEE float64 computation
(`Duration.Hours()` returns float64), and its rounding behaviour near
half-day boundaries depends on float64 rounding error (for example, at
`Diff = 86356799999999994` ns, about 999.49999999999993 days, the float64
sum inside `Hours()` rounds up so the program returns 1000 although the
exact value is nearer 999). An exact-arithmetic stand-in would misdecide
exactly the boundary cases such a rounding claim is about, so no claim is
settled against one here. -/

/-- `func (u *Updater) checkValidity() error`. Go mutates `u` in place and
returns an error; the model returns the updated struct or the error. `exe`
is the result of `osext.Executable()`, consulted only when `Path` is empty. -/
def checkValidity (u : Updater) (exe : Except String String) :
    Except String Updater :=
  if u.BaseURL = "" then .error "Updater: BaseURL is required"
  else
    let u1 := if u.LogfSet then u else { u with LogfSet := true }
    let u2 := if u1.CheckInterval = 0 then
        { u1 with CheckInterval := DefaultCheckInterval } else u1
    if u2.CheckInterval ≤ 0 then .error "Updater: CheckInterval must be > 0"
    else if u2.Path = "" then
      match exe with
      | .error e => .error e
      | .ok p => .ok { u2 with Path := p }
    else .ok u2

/-- `func (u *Updater) updateURL() string`, with the platform identifiers
(`runtime.GOOS`, `runtime.GOARCH`) passed explicitly. -/
def updateURL (u : Updater) (goos goarch : String) : String :=
  u.BaseURL ++ "-" ++ goosToUname goos ++ "-" ++ goarchToUname goarch

/-- `path.Split(p)`: everything up to and including the final slash, and the
rest. With no slash the directory part is empty. -/
def pathSplit (p : String) : String × String :=
  let cs := p.data
  let k := cs.length - (cs.reverse.takeWhile (fun c => c != '/')).length
  (String.mk (cs.take k), String.mk (cs.drop k))

/-- The stamp file `dir + "." + base + checkSuffix` beside the target. -/
def stampPath (p : String) : String :=
  (pathSplit p).1 ++ "." ++ (pathSplit p).2 ++ checkSuffix

/-- The temporary download file `dir + "." + base + downloadSuffix`. -/
def downloadPath (p : String) : String :=
  (pathSplit p).1 ++ "." ++ (pathSplit p).2 ++ downloadSuffix

/-- The backup file `dir + "." + base + backupSuffix`. -/
def backupPath (p : String) : String :=
  (pathSplit p).1 ++ "." ++ (pathSplit p).2 ++ backupSuffix

/-- A file on disk: its byte content and its modification time. -/
structure FileInfo where
  content : List Nat
  modTime : Int
  deriving DecidableEq, Repr

/-- The filesystem: an association list from path to file. -/
def FS : Type := List (String × FileInfo)

instance : DecidableEq FS := by unfold FS; infer_instance

/-- Look a path up (`os.Stat` / `os.Open` success case). -/
def FS.find : FS → String → Option FileInfo
  | [], _ => none
  | (q, fi) :: rest, p => if p = q then some fi else FS.find rest p

/-- Delete every entry at a path. -/
def FS.del : FS → String → FS
  | [], _ => []
  | (q, fi) :: rest, p => if q = p then FS.del rest p else (q, fi) :: FS.del rest p

/-- Create or overwrite the file at a path. -/
def FS.set (fs : FS) (p : String) (fi : FileInfo) : FS := (p, fi) :: fs.del p

/-- `os.Link(src, dst)`: fails when the source is missing or the destination
exists; otherwise a second directory entry for the same file appears.
Because no operation in this program mutates file content in place, sharing
the inode is observationally the same as copying the `FileInfo`. -/
def FS.link (fs : FS) (src dst : String) : Except String FS :=
  match fs.find src with
  | none => .error "link: no such file"
  | some fi =>
    match fs.find dst with
    | some _ => .error "link: file exists"
    | none => .ok (fs.set dst fi)

/-- `os.Rename(src, dst)`: fails when the source is missing; otherwise the
source entry replaces whatever was at the destination, atomically. -/
def FS.rename (fs : FS) (src dst : String) : Except String FS :=
  match fs.find src with
  | none => .error "rename: no such file"
  | some fi => .ok ((fs.del src).set dst fi)

/-- The mutable outside state an invocation runs against. `now` is the value
`time.Now()` returns during the call. The `bad*Paths` lists name paths on
which the corresponding OS call fails for an unmodelled reason (permissions,
I/O): `badStatPaths` makes `os.Stat` fail with an error that is not
`IsNotExist`, `badWritePaths` makes `ioutil.WriteFile` fail, `badOpenPaths`
makes `os.OpenFile` fail, `badClosePaths` makes `File.Close` fail, and
`badRemovePaths` makes `os.Remove` fail with an error that is not
`IsNotExist`. -/
structure World where
  fs : FS
  now : Int
  badStatPaths : List String
  badWritePaths : List String
  badOpenPaths : List String
  badClosePaths : List String
  badRemovePaths : List String
  deriving DecidableEq

/-- An HTTP HEAD response: the status, whether draining and closing the body
succeeded, and the result of parsing the `Last-Modified` header with
`time.Parse(time.RFC1123, ·)` — `none` when the header is missing or
malformed, `some t` for a header denoting instant `t`. -/
structure HeadResponse where
  statusCode : Nat
  status : String
  bodyCopyOk : Bool
  closeOk : Bool
  lastModified : Option Int
  deriving DecidableEq, Repr

/-- An HTTP GET response: the status, the body bytes, and whether streaming
and closing the body succeeded. -/
structure GetResponse where
  statusCode : Nat
  status : String
  body : List Nat
  bodyCopyOk : Bool
  closeOk : Bool
  deriving DecidableEq, Repr

deriving instance DecidableEq for Except

/-- Result of `MaybeCheckForUpdate`: the returned value, the filesystem
afterward, and which URL, if any, was requested over the network. -/
structure CheckOutcome where
  result : Except String Metadata
  fs : FS
  fetched : Option String
  deriving DecidableEq

/-- Result of `Update`: the returned error, the filesystem afterward, and
which URL, if any, was requested over the network. -/
structure UpdateOutcome where
  result : Except String Unit
  fs : FS
  fetched : Option String
  deriving DecidableEq

/-- The last-check timestamp: the stamp file's modification time, or the
zero time when the stamp file does not exist ("never checked"). -/
def lastCheck (w : World) (p : String) : Int :=
  match w.fs.find (stampPath p) with
  | some fi => fi.modTime
  | none => 0

/-- `func (u *Updater) MaybeCheckForUpdate() (Metadata, error)`, following
the source line by line. `head` maps the requested URL to the outcome of
`http.Head`. -/
def MaybeCheckForUpdate (u0 : Updater) (exe : Except String String)
    (goos goarch : String) (w : World)
    (head : String → Except String HeadResponse) : CheckOutcome :=
  match checkValidity u0 exe with
  | .error e => ⟨.error e, w.fs, none⟩
  | .ok u =>
    let checkStampPath := stampPath u.Path
    -- os.Stat(checkStampPath); IsNotExist means "never checked" (zero time)
    if checkStampPath ∈ w.badStatPaths then
      ⟨.error "stat failed", w.fs, none⟩
    else
      let lastCheckTime : Int := lastCheck w u.Path
      let diff := w.now - lastCheckTime
      if diff < u.CheckInterval then ⟨.ok Metadata.zero, w.fs, none⟩
      else
        -- os.Stat(u.Path): any error is fatal
        if u.Path ∈ w.badStatPaths then ⟨.error "stat failed", w.fs, none⟩
        else
          match w.fs.find u.Path with
          | none => ⟨.error "stat failed: no such file", w.fs, none⟩
          | some fileinfo =>
            let url := updateURL u goos goarch
            match head url with
            | .error e => ⟨.error e, w.fs, some url⟩
            | .ok resp =>
              if !resp.bodyCopyOk then ⟨.error "body copy failed", w.fs, some url⟩
              else if !resp.closeOk then ⟨.error "body close failed", w.fs, some url⟩
              else if resp.statusCode ≠ 200 then
                ⟨.error ("status not 200 OK: " ++ resp.status), w.fs, some url⟩
              else
                match resp.lastModified with
                | none => ⟨.error "parse failed", w.fs, some url⟩
                | some httpModified =>
                  -- ioutil.WriteFile(checkStampPath, []byte{}, 0600)
                  if checkStampPath ∈ w.badWritePaths then
                    ⟨.error "write failed", w.fs, some url⟩
                  else
                    ⟨.ok ⟨httpModified, httpModified - fileinfo.modTime⟩,
                      w.fs.set checkStampPath ⟨[], w.now⟩, some url⟩

/-- `func (u *Updater) Update() error`, following the source line by line.
`get` maps the requested URL to the outcome of `http.Get`; `applyResult` is
the outcome of `cmd.Run()` on the downloaded binary with `u.ApplyArgs`
(`.error` covers both a launch failure and a non-zero exit). The bytes
written before a failed `io.Copy` are not observable in any claim, so that
case keeps the truncated (empty) file. -/
def Update (u0 : Updater) (exe : Except String String)
    (goos goarch : String) (w : World)
    (get : String → Except String GetResponse)
    (applyResult : Except String Unit) : UpdateOutcome :=
  match checkValidity u0 exe with
  | .error e => ⟨.error e, w.fs, none⟩
  | .ok u =>
    let updatePath := downloadPath u.Path
    -- os.OpenFile(updatePath, O_WRONLY|O_TRUNC|O_CREATE, 0700)
    if updatePath ∈ w.badOpenPaths then ⟨.error "open failed", w.fs, none⟩
    else
      let fs1 := w.fs.set updatePath ⟨[], w.now⟩
      let url := updateURL u goos goarch
      match get url with
      | .error e => ⟨.error e, fs1, some url⟩
      | .ok resp =>
        if resp.statusCode ≠ 200 then
          ⟨.error ("status not 200 OK: " ++ resp.status), fs1, some url⟩
        else if !resp.bodyCopyOk then ⟨.error "body copy failed", fs1, some url⟩
        else
          let fs2 := fs1.set updatePath ⟨resp.body, w.now⟩
          if !resp.closeOk then ⟨.error "body close failed", fs2, some url⟩
          else if updatePath ∈ w.badClosePaths then
            ⟨.error "close failed", fs2, some url⟩
          else
            -- validation subprocess, only when ApplyArgs is non-empty
            match if u.ApplyArgs.isEmpty then .ok () else applyResult with
            | .error e =>
              ⟨.error ("Update() failed to apply update: " ++ e), fs2, some url⟩
            | .ok () =>
              let bak := backupPath u.Path
              -- os.Remove(bak); IsNotExist is ignored
              if bak ∈ w.badRemovePaths then ⟨.error "remove failed", fs2, some url⟩
              else
                let fs3 := fs2.del bak
                match fs3.link u.Path bak with
                | .error e => ⟨.error e, fs3, some url⟩
                | .ok fs4 =>
                  match fs4.rename updatePath u.Path with
                  | .error e => ⟨.error e, fs4, some url⟩
                  | .ok fs5 => ⟨.ok (), fs5, some url⟩

/-! ### Helper lemmas about the filesystem model -/

theorem FS.find_del (fs : FS) (p q : String) :
    (fs.del p).find q = if q = p then none else fs.find q := by
  induction fs with
  | nil => simp [FS.del, FS.find]
  | cons e rest ih =>
    obtain ⟨r, fi⟩ := e
    by_cases hrp : r = p
    · subst hrp
      by_cases hqr : q = r
      · subst hqr
        simp [FS.del, FS.find, ih]
      · simp [FS.del, FS.find, hqr, ih]
    · by_cases hqr : q = r
      · subst hqr
        simp [FS.del, FS.find, hrp, ih]
      · simp [FS.del, FS.find, hrp, hqr, ih]

theorem FS.find_set (fs : FS) (p q : String) (fi : FileInfo) :
    (fs.set p fi).find q = if q = p then some fi else fs.find q := by
  by_cases hqp : q = p <;> simp [FS.set, FS.find, FS.find_del, hqp]

/-! ### Helper lemmas about the sibling paths -/

theorem pathSplit_length (p : String) :
    (pathSplit p).1.length + (pathSplit p).2.length = p.length := by
  unfold pathSplit
  simp only [String.length_mk]
  rw [List.length_take, List.length_drop]
  have h : p.length = p.data.length := rfl
  omega

theorem stampPath_length (p : String) :
    (stampPath p).length = p.length + 7 := by
  unfold stampPath
  rw [String.length_append, String.length_append, String.length_append]
  have h := pathSplit_length p
  have h1 : ("." : String).length = 1 := rfl
  have h2 : checkSuffix.length = 6 := rfl
  omega

theorem downloadPath_length (p : String) :
    (downloadPath p).length = p.length + 10 := by
  unfold downloadPath
  rw [String.length_append, String.length_append, String.length_append]
  have h := pathSplit_length p
  have h1 : ("." : String).length = 1 := rfl
  have h2 : downloadSuffix.length = 9 := rfl
  omega

theorem backupPath_length (p : String) :
    (backupPath p).length = p.length + 8 := by
  unfold backupPath
  rw [String.length_append, String.length_append, String.length_append]
  have h := pathSplit_length p
  have h1 : ("." : String).length = 1 := rfl
  have h2 : backupSuffix.length = 7 := rfl
  omega

theorem stampPath_ne (p : String) : stampPath p ≠ p := by
  intro h
  have := stampPath_length p
  rw [h] at this
  omega

theorem downloadPath_ne (p : String) : downloadPath p ≠ p := by
  intro h
  have := downloadPath_length p
  rw [h] at this
  omega

theorem backupPath_ne (p : String) : backupPath p ≠ p := by
  intro h
  have := backupPath_length p
  rw [h] at this
  omega

theorem downloadPath_ne_backupPath (p : String) :
    downloadPath p ≠ backupPath p := by
  intro h
  have h1 := downloadPath_length p
  have h2 := backupPath_length p
  rw [h] at h1
  omega

theorem stampPath_ne_downloadPath (p : String) :
    stampPath p ≠ downloadPath p := by
  intro h
  have h1 := stampPath_length p
  have h2 := downloadPath_length p
  rw [h] at h1
  omega

theorem stampPath_ne_backupPath (p : String) :
    stampPath p ≠ backupPath p := by
  intro h
  have h1 := stampPath_length p
  have h2 := backupPath_length p
  rw [h] at h1
  omega

theorem FS.link_ok (fs fs' : FS) (src dst : String)
    (h : fs.link src dst = .ok fs') :
    ∃ fi, fs.find src = some fi ∧ fs.find dst = none ∧ fs' = fs.set dst fi := by
  unfold FS.link at h
  rcases h1 : fs.find src with _ | fi <;> rw [h1] at h
  · exact Except.noConfusion h
  rcases h2 : fs.find dst with _ | x <;> rw [h2] at h
  · injection h with h
    exact ⟨fi, rfl, rfl, h.symm⟩
  · exact Except.noConfusion h

theorem FS.rename_ok (fs fs' : FS) (src dst : String)
    (h : fs.rename src dst = .ok fs') :
    ∃ fi, fs.find src = some fi ∧ fs' = (fs.del src).set dst fi := by
  unfold FS.rename at h
  rcases h1 : fs.find src with _ | fi <;> rw [h1] at h
  · exact Except.noConfusion h
  · injection h with h
    exact ⟨fi, rfl, h.symm⟩

/-! ### Characterization of `checkValidity` -/

theorem checkValidity_ok (u : Updater) (p : String) (hb : u.BaseURL ≠ "")
    (hi : 0 ≤ u.CheckInterval) :
    checkValidity u (.ok p) = .ok
      { BaseURL := u.BaseURL
        Path := if u.Path = "" then p else u.Path
        CheckInterval :=
          if u.CheckInterval = 0 then DefaultCheckInterval else u.CheckInterval
        LogfSet := true
        ApplyArgs := u.ApplyArgs } := by
  obtain ⟨b, pa, ci, lf, aa⟩ := u
  simp only at hb hi
  unfold checkValidity
  rw [if_neg hb]
  by_cases hl : lf = true <;> by_cases hz : ci = 0 <;> by_cases hp : pa = "" <;>
    simp_all [DefaultCheckInterval] <;> omega

theorem checkValidity_err_base (u : Updater) (exe : Except String String)
    (hb : u.BaseURL = "") :
    checkValidity u exe = .error "Updater: BaseURL is required" := by
  unfold checkValidity
  rw [if_pos hb]

theorem checkValidity_err_neg (u : Updater) (exe : Except String String)
    (hb : u.BaseURL ≠ "") (hi : u.CheckInterval < 0) :
    checkValidity u exe = .error "Updater: CheckInterval must be > 0" := by
  obtain ⟨b, pa, ci, lf, aa⟩ := u
  simp only at hb hi
  unfold checkValidity
  rw [if_neg hb]
  by_cases hl : lf = true <;> by_cases hz : ci = 0 <;>
    simp_all <;> omega

theorem checkValidity_idem (u u' : Updater) (p : String)
    (h : checkValidity u (.ok p) = .ok u') :
    checkValidity u' (.ok p) = .ok u' := by
  by_cases hb : u.BaseURL = ""
  · rw [checkValidity_err_base u _ hb] at h
    exact Except.noConfusion h
  by_cases hi : 0 ≤ u.CheckInterval
  · rw [checkValidity_ok u p hb hi] at h
    injection h with h
    subst h
    rw [checkValidity_ok]
    · congr 1
      simp only [Updater.mk.injEq, true_and, and_true]
      split_ifs <;> simp_all [DefaultCheckInterval]
    · exact hb
    · dsimp only
      split_ifs
      · simp [DefaultCheckInterval]
      · omega
  · rw [checkValidity_err_neg u _ hb (by omega)] at h
    exact Except.noConfusion h

/-! ### Claim theorems -/

/-- C8 (corrected): `checkValidity` is idempotent and fills in the defaults
(`CheckInterval` 0 becomes 24 hours, an empty `Path` becomes the running
executable, a nil log function becomes a no-op), but it returns an error
exactly when `BaseURL` is empty or `CheckInterval` is negative: an interval
of exactly 0 is replaced by the 24-hour default before the positivity test,
so it does not produce an error. -/
theorem checkValidity_defaults_and_error_condition (u : Updater) (p : String) :
    ((∃ e, checkValidity u (.ok p) = .error e) ↔
      u.BaseURL = "" ∨ u.CheckInterval < 0) ∧
    (∀ u', checkValidity u (.ok p) = .ok u' →
      checkValidity u' (.ok p) = .ok u' ∧
      u'.LogfSet = true ∧ 0 < u'.CheckInterval ∧
      (u.CheckInterval = 0 → u'.CheckInterval = DefaultCheckInterval) ∧
      (u.Path = "" → u'.Path = p)) := by
  constructor
  · constructor
    · rintro ⟨e, he⟩
      by_contra hcon
      push_neg at hcon
      rw [checkValidity_ok u p hcon.1 (by omega)] at he
      exact Except.noConfusion he
    · rintro (hb | hi)
      · exact ⟨_, checkValidity_err_base u _ hb⟩
      · by_cases hb : u.BaseURL = ""
        · exact ⟨_, checkValidity_err_base u _ hb⟩
        · exact ⟨_, checkValidity_err_neg u _ hb hi⟩
  · intro u' hok
    refine ⟨checkValidity_idem u u' p hok, ?_⟩
    by_cases hb : u.BaseURL = ""
    · rw [checkValidity_err_base u _ hb] at hok
      exact Except.noConfusion hok
    · by_cases hi : 0 ≤ u.CheckInterval
      · rw [checkValidity_ok u p hb hi] at hok
        injection hok with hok
        subst hok
        refine ⟨rfl, ?_, ?_, ?_⟩
        · dsimp only
          split_ifs
          · simp [DefaultCheckInterval]
          · omega
        · intro hz
          simp [hz]
        · intro hp
          simp [hp]
      · rw [checkValidity_err_neg u _ hb (by omega)] at hok
        exact Except.noConfusion hok

/-- Witness for C8: a configuration with `CheckInterval = 0` and empty
`Path` validates successfully and receives the defaults. -/
theorem checkValidity_defaults_witness :
    ((∃ e, checkValidity ⟨"https://e/b", "", 0, false, []⟩ (.ok "/bin/me")
        = .error e) ↔
      ("https://e/b" : String) = "" ∨ (0 : Int) < 0) ∧
    (∀ u', checkValidity ⟨"https://e/b", "", 0, false, []⟩ (.ok "/bin/me")
        = .ok u' →
      checkValidity u' (.ok "/bin/me") = .ok u' ∧
      u'.LogfSet = true ∧ 0 < u'.CheckInterval ∧
      ((0 : Int) = 0 → u'.CheckInterval = DefaultCheckInterval) ∧
      (("" : String) = "" → u'.Path = "/bin/me")) :=
  checkValidity_defaults_and_error_condition ⟨"https://e/b", "", 0, false, []⟩
    "/bin/me"

/-- C8 counterexample: the claim says an error is returned exactly when
`BaseURL` is empty or `CheckInterval ≤ 0`, yet a configuration with
`CheckInterval = 0` (which is `≤ 0`) validates without error: the zero value
is replaced by the 24-hour default before the positivity test. -/
theorem checkValidity_zero_interval_no_error :
    (0 : Int) ≤ 0 ∧
    checkValidity ⟨"https://e/b", "/a/b", 0, true, []⟩ (.ok "/bin/me")
      = .ok ⟨"https://e/b", "/a/b", DefaultCheckInterval, true, []⟩ := by
  constructor
  · decide
  · decide

/-- C3 (confirmed): with a valid configuration whose stamp file and target
binary stat without error and whose target exists, `MaybeCheckForUpdate`
performs a network request if and only if `now` minus the stamp file's
modification time (zero time when the stamp file is missing) is at least
`CheckInterval`; when the elapsed time is smaller it returns the zero
`Metadata`, no error, an unchanged filesystem, and touches the network
not at all. -/
theorem check_gate_iff (u0 u : Updater) (exe : Except String String)
    (goos goarch : String) (w : World)
    (head : String → Except String HeadResponse) (fi : FileInfo)
    (hv : checkValidity u0 exe = .ok u)
    (hstamp : stampPath u.Path ∉ w.badStatPaths)
    (htarget : u.Path ∉ w.badStatPaths)
    (hexist : w.fs.find u.Path = some fi) :
    ((MaybeCheckForUpdate u0 exe goos goarch w head).fetched.isSome = true ↔
      u.CheckInterval ≤ w.now - lastCheck w u.Path) ∧
    (w.now - lastCheck w u.Path < u.CheckInterval →
      MaybeCheckForUpdate u0 exe goos goarch w head =
        ⟨.ok Metadata.zero, w.fs, none⟩) := by
  unfold MaybeCheckForUpdate
  rw [hv]
  simp only [hstamp, if_neg, ite_false, reduceIte]
  by_cases hdue : w.now - lastCheck w u.Path < u.CheckInterval
  · simp [hdue]
  · simp only [hdue, ite_false, reduceIte, htarget, hexist]
    rcases hh : head (updateURL u goos goarch) with e | resp <;>
      simp only [hh]
    · simp
      omega
    · rcases hlm : resp.lastModified with _ | t <;> simp only [hlm] <;>
        split_ifs <;> simp <;> try omega

/-- Witness for C3: first check with no stamp file present. -/
theorem check_gate_iff_witness :
    ((MaybeCheckForUpdate ⟨"https://x/tool", "/a/b", 1000, true, []⟩ (.ok "/e")
        "linux" "amd64" ⟨[("/a/b", ⟨[1], 5⟩)], 1000000, [], [], [], [], []⟩
        (fun _ => .ok ⟨200, "200 OK", true, true, some 777⟩)).fetched.isSome
        = true ↔
      (⟨"https://x/tool", "/a/b", 1000, true, []⟩ : Updater).CheckInterval ≤
        (⟨[("/a/b", ⟨[1], 5⟩)], 1000000, [], [], [], [], []⟩ : World).now -
          lastCheck ⟨[("/a/b", ⟨[1], 5⟩)], 1000000, [], [], [], [], []⟩ "/a/b") ∧
    ((⟨[("/a/b", ⟨[1], 5⟩)], 1000000, [], [], [], [], []⟩ : World).now -
        lastCheck ⟨[("/a/b", ⟨[1], 5⟩)], 1000000, [], [], [], [], []⟩ "/a/b" <
        (⟨"https://x/tool", "/a/b", 1000, true, []⟩ : Updater).CheckInterval →
      MaybeCheckForUpdate ⟨"https://x/tool", "/a/b", 1000, true, []⟩ (.ok "/e")
        "linux" "amd64" ⟨[("/a/b", ⟨[1], 5⟩)], 1000000, [], [], [], [], []⟩
        (fun _ => .ok ⟨200, "200 OK", true, true, some 777⟩) =
        ⟨.ok Metadata.zero,
          (⟨[("/a/b", ⟨[1], 5⟩)], 1000000, [], [], [], [], []⟩ : World).fs,
          none⟩) :=
  check_gate_iff ⟨"https://x/tool", "/a/b", 1000, true, []⟩
    ⟨"https://x/tool", "/a/b", 1000, true, []⟩ (.ok "/e") "linux" "amd64"
    ⟨[("/a/b", ⟨[1], 5⟩)], 1000000, [], [], [], [], []⟩
    (fun _ => .ok ⟨200, "200 OK", true, true, some 777⟩) ⟨[1], 5⟩
    (by decide) (by decide) (by decide) (by decide)

/-- C4 (confirmed): the stamp file is written only after the HEAD request
returned status 200 and the `Last-Modified` header parsed; on any failure
the call returns an error and the filesystem — in particular the stamp
file — is unchanged, and whenever the filesystem did change, the change is
exactly the stamp file touched to `now` and the HEAD response was a 200
with a parseable `Last-Modified`. -/
theorem stamp_touched_only_after_success (u0 u : Updater)
    (exe : Except String String) (goos goarch : String) (w : World)
    (head : String → Except String HeadResponse)
    (hv : checkValidity u0 exe = .ok u) :
    ((∃ e, (MaybeCheckForUpdate u0 exe goos goarch w head).result = .error e) →
      (MaybeCheckForUpdate u0 exe goos goarch w head).fs = w.fs) ∧
    ((MaybeCheckForUpdate u0 exe goos goarch w head).fs ≠ w.fs →
      (MaybeCheckForUpdate u0 exe goos goarch w head).fs
          = w.fs.set (stampPath u.Path) ⟨[], w.now⟩ ∧
      ∃ resp, head (updateURL u goos goarch) = .ok resp ∧
        resp.statusCode = 200 ∧ resp.lastModified.isSome = true) := by
  unfold MaybeCheckForUpdate
  rw [hv]
  by_cases h1 : stampPath u.Path ∈ w.badStatPaths
  · simp [h1]
  simp only [h1, ite_false, reduceIte]
  by_cases h2 : w.now - lastCheck w u.Path < u.CheckInterval
  · simp [h2]
  simp only [h2, ite_false, reduceIte]
  by_cases h3 : u.Path ∈ w.badStatPaths
  · simp [h3]
  simp only [h3, ite_false, reduceIte]
  rcases h4 : w.fs.find u.Path with _ | fi <;> simp only [h4]
  · simp
  rcases h5 : head (updateURL u goos goarch) with e | resp <;> simp only [h5]
  · simp
  by_cases h6 : resp.bodyCopyOk
  case neg => simp [h6]
  by_cases h7 : resp.closeOk
  case neg => simp [h6, h7]
  by_cases h8 : resp.statusCode = 200
  case neg => simp [h6, h7, h8]
  rcases h9 : resp.lastModified with _ | t <;>
    simp only [h6, h7, h8, h9, Bool.not_true, ite_false, ite_true, reduceIte]
  · simp
  by_cases h10 : stampPath u.Path ∈ w.badWritePaths
  · simp [h10]
  · simp only [h10, ite_false, reduceIte]
    refine ⟨?_, ?_⟩
    · rintro ⟨e, he⟩
      exact Except.noConfusion he
    · intro _
      exact ⟨rfl, resp, rfl, h8, by simp [h9]⟩

/-- Witness for C4: a failed HEAD request leaves the filesystem unchanged. -/
theorem stamp_touched_only_after_success_witness :
    ((∃ e, (MaybeCheckForUpdate ⟨"https://x/tool", "/a/b", 1000, true, []⟩
        (.ok "/e") "linux" "amd64"
        ⟨[("/a/b", ⟨[1], 5⟩)], 1000000, [], [], [], [], []⟩
        (fun _ => .error "connection refused")).result = .error e) →
      (MaybeCheckForUpdate ⟨"https://x/tool", "/a/b", 1000, true, []⟩
        (.ok "/e") "linux" "amd64"
        ⟨[("/a/b", ⟨[1], 5⟩)], 1000000, [], [], [], [], []⟩
        (fun _ => .error "connection refused")).fs =
        (⟨[("/a/b", ⟨[1], 5⟩)], 1000000, [], [], [], [], []⟩ : World).fs) ∧
    ((MaybeCheckForUpdate ⟨"https://x/tool", "/a/b", 1000, true, []⟩
        (.ok "/e") "linux" "amd64"
        ⟨[("/a/b", ⟨[1], 5⟩)], 1000000, [], [], [], [], []⟩
        (fun _ => .error "connection refused")).fs ≠
        (⟨[("/a/b", ⟨[1], 5⟩)], 1000000, [], [], [], [], []⟩ : World).fs →
      (MaybeCheckForUpdate ⟨"https://x/tool", "/a/b", 1000, true, []⟩
        (.ok "/e") "linux" "amd64"
        ⟨[("/a/b", ⟨[1], 5⟩)], 1000000, [], [], [], [], []⟩
        (fun _ => .error "connection refused")).fs =
        (⟨[("/a/b", ⟨[1], 5⟩)], 1000000, [], [], [], [], []⟩ : World).fs.set
          (stampPath (⟨"https://x/tool", "/a/b", 1000, true, []⟩ : Updater).Path)
          ⟨[], (⟨[("/a/b", ⟨[1], 5⟩)], 1000000, [], [], [], [], []⟩ : World).now⟩ ∧
      ∃ resp, (fun _ => .error "connection refused" :
          String → Except String HeadResponse)
          (updateURL ⟨"https://x/tool", "/a/b", 1000, true, []⟩ "linux" "amd64")
          = .ok resp ∧
        resp.statusCode = 200 ∧ resp.lastModified.isSome = true) :=
  stamp_touched_only_after_success ⟨"https://x/tool", "/a/b", 1000, true, []⟩
    ⟨"https://x/tool", "/a/b", 1000, true, []⟩ (.ok "/e") "linux" "amd64"
    ⟨[("/a/b", ⟨[1], 5⟩)], 1000000, [], [], [], [], []⟩
    (fun _ => .error "connection refused") (by decide)

/-- C5 (confirmed): when a check is performed and every step succeeds,
`MaybeCheckForUpdate` returns `Metadata` whose `Updated` field is the parsed
`Last-Modified` time and whose `Diff` field is that time minus the target's
modification time; and `Metadata.Outdated` is true exactly when `Diff` is
positive. -/
theorem check_success_metadata (u0 u : Updater) (exe : Except String String)
    (goos goarch : String) (w : World)
    (head : String → Except String HeadResponse) (fi : FileInfo)
    (resp : HeadResponse) (t : Int)
    (hv : checkValidity u0 exe = .ok u)
    (hstamp : stampPath u.Path ∉ w.badStatPaths)
    (hdue : ¬(w.now - lastCheck w u.Path < u.CheckInterval))
    (htarget : u.Path ∉ w.badStatPaths)
    (hexist : w.fs.find u.Path = some fi)
    (hhead : head (updateURL u goos goarch) = .ok resp)
    (hcopy : resp.bodyCopyOk = true) (hclose : resp.closeOk = true)
    (hstatus : resp.statusCode = 200)
    (hparse : resp.lastModified = some t)
    (hwrite : stampPath u.Path ∉ w.badWritePaths) :
    (MaybeCheckForUpdate u0 exe goos goarch w head).result =
      .ok ⟨t, t - fi.modTime⟩ ∧
    (∀ m : Metadata, m.Outdated = true ↔ 0 < m.Diff) := by
  constructor
  · unfold MaybeCheckForUpdate
    rw [hv]
    simp [hstamp, hdue, htarget, hexist, hhead, hcopy, hclose, hstatus,
      hparse, hwrite]
  · intro m
    simp [Metadata.Outdated]

/-- Witness for C5: remote published at 777, local binary at 5. -/
theorem check_success_metadata_witness :
    (MaybeCheckForUpdate ⟨"https://x/tool", "/a/b", 1000, true, []⟩ (.ok "/e")
        "linux" "amd64" ⟨[("/a/b", ⟨[1], 5⟩)], 1000000, [], [], [], [], []⟩
        (fun _ => .ok ⟨200, "200 OK", true, true, some 777⟩)).result =
      .ok ⟨777, 777 - (⟨[1], 5⟩ : FileInfo).modTime⟩ ∧
    (∀ m : Metadata, m.Outdated = true ↔ 0 < m.Diff) :=
  check_success_metadata ⟨"https://x/tool", "/a/b", 1000, true, []⟩
    ⟨"https://x/tool", "/a/b", 1000, true, []⟩ (.ok "/e") "linux" "amd64"
    ⟨[("/a/b", ⟨[1], 5⟩)], 1000000, [], [], [], [], []⟩
    (fun _ => .ok ⟨200, "200 OK", true, true, some 777⟩) ⟨[1], 5⟩
    ⟨200, "200 OK", true, true, some 777⟩ 777
    (by decide) (by decide) (by decide) (by decide) (by decide) rfl
    rfl rfl rfl rfl (by decide)

/-- C7 (corrected): an empty `BaseURL` produces a configuration error before
any network access, for both operations; but a CPU architecture missing
from the fixed translation table is NOT rejected as a configuration error:
its name resolves to the empty string, the URL degenerates to
`BaseURL-OS-`, and the network request proceeds. -/
theorem empty_baseURL_config_error (u : Updater) (exe : Except String String)
    (goos goarch : String) (w : World)
    (head : String → Except String HeadResponse)
    (get : String → Except String GetResponse)
    (applyResult : Except String Unit)
    (hb : u.BaseURL = "") :
    (MaybeCheckForUpdate u exe goos goarch w head).result
        = .error "Updater: BaseURL is required" ∧
    (MaybeCheckForUpdate u exe goos goarch w head).fetched = none ∧
    (Update u exe goos goarch w get applyResult).result
        = .error "Updater: BaseURL is required" ∧
    (Update u exe goos goarch w get applyResult).fetched = none ∧
    (unameArches.lookup goarch = none →
      updateURL u goos goarch = u.BaseURL ++ "-" ++ goosToUname goos ++ "-") := by
  have h := checkValidity_err_base u exe hb
  refine ⟨?_, ?_, ?_, ?_, ?_⟩
  · unfold MaybeCheckForUpdate
    rw [h]
  · unfold MaybeCheckForUpdate
    rw [h]
  · unfold Update
    rw [h]
  · unfold Update
    rw [h]
  · intro hg
    unfold updateURL goarchToUname
    rw [hg]
    simp

/-- Witness for C7: the empty-`BaseURL` configuration is rejected before the
network oracle is consulted, and "arm64" is absent from the table. -/
theorem empty_baseURL_config_error_witness :
    (MaybeCheckForUpdate ⟨"", "/a/b", 1000, true, []⟩ (.ok "/e") "linux"
        "arm64" ⟨[], 7, [], [], [], [], []⟩
        (fun _ => .error "net")).result
        = .error "Updater: BaseURL is required" ∧
    (MaybeCheckForUpdate ⟨"", "/a/b", 1000, true, []⟩ (.ok "/e") "linux"
        "arm64" ⟨[], 7, [], [], [], [], []⟩
        (fun _ => .error "net")).fetched = none ∧
    (Update ⟨"", "/a/b", 1000, true, []⟩ (.ok "/e") "linux" "arm64"
        ⟨[], 7, [], [], [], [], []⟩ (fun _ => .error "net")
        (.ok ())).result = .error "Updater: BaseURL is required" ∧
    (Update ⟨"", "/a/b", 1000, true, []⟩ (.ok "/e") "linux" "arm64"
        ⟨[], 7, [], [], [], [], []⟩ (fun _ => .error "net")
        (.ok ())).fetched = none ∧
    (unameArches.lookup "arm64" = none →
      updateURL ⟨"", "/a/b", 1000, true, []⟩ "linux" "arm64"
        = (⟨"", "/a/b", 1000, true, []⟩ : Updater).BaseURL ++ "-"
          ++ goosToUname "linux" ++ "-") :=
  empty_baseURL_config_error ⟨"", "/a/b", 1000, true, []⟩ (.ok "/e") "linux"
    "arm64" ⟨[], 7, [], [], [], [], []⟩ (fun _ => .error "net")
    (fun _ => .error "net") (.ok ()) rfl

/-- C7 counterexample: a valid configuration on an architecture outside the
translation table ("arm64") is not rejected as a configuration error: the
check proceeds all the way to the network, requesting the degenerate URL
`https://x/tool-Linux-` whose architecture suffix is empty. -/
theorem unmapped_arch_reaches_network :
    (MaybeCheckForUpdate ⟨"https://x/tool", "/a/b", 1000, true, []⟩ (.ok "/e")
      "linux" "arm64" ⟨[("/a/b", ⟨[1], 5⟩)], 1000000, [], [], [], [], []⟩
      (fun _ => .error "network unreachable")).fetched
      = some "https://x/tool-Linux-" ∧
    unameArches.lookup "arm64" = none := by
  constructor
  · decide
  · decide

/-- C1 (confirmed): with non-empty `ApplyArgs`, when the validation
subprocess fails, `Update` returns the apply error and performs no
replacement: the live binary (content and modification time) is unchanged,
the backup file entry is untouched, and the downloaded file remains on disk
with the downloaded content. -/
theorem apply_failure_no_replacement (u0 u : Updater)
    (exe : Except String String) (goos goarch : String) (w : World)
    (get : String → Except String GetResponse) (resp : GetResponse)
    (e : String)
    (hv : checkValidity u0 exe = .ok u)
    (hargs : u.ApplyArgs ≠ [])
    (hopen : downloadPath u.Path ∉ w.badOpenPaths)
    (hget : get (updateURL u goos goarch) = .ok resp)
    (hstatus : resp.statusCode = 200)
    (hcopy : resp.bodyCopyOk = true)
    (hclose : resp.closeOk = true)
    (hfclose : downloadPath u.Path ∉ w.badClosePaths) :
    (Update u0 exe goos goarch w get (.error e)).result
        = .error ("Update() failed to apply update: " ++ e) ∧
    (Update u0 exe goos goarch w get (.error e)).fs.find u.Path
        = w.fs.find u.Path ∧
    (Update u0 exe goos goarch w get (.error e)).fs.find (backupPath u.Path)
        = w.fs.find (backupPath u.Path) ∧
    (Update u0 exe goos goarch w get (.error e)).fs.find (downloadPath u.Path)
        = some ⟨resp.body, w.now⟩ := by
  have hpd : u.Path ≠ downloadPath u.Path := Ne.symm (downloadPath_ne u.Path)
  have hbd : backupPath u.Path ≠ downloadPath u.Path :=
    Ne.symm (downloadPath_ne_backupPath u.Path)
  have hae : u.ApplyArgs.isEmpty = false := by
    cases h : u.ApplyArgs <;> simp_all
  unfold Update
  rw [hv]
  simp [hopen, hget, hstatus, hcopy, hclose, hfclose, hae,
    FS.find_set, hpd, hbd]

/-- Witness for C1: a failing validation run leaves everything but the
download file alone. -/
theorem apply_failure_no_replacement_witness :
    (Update ⟨"https://x/tool", "/a/b", 1000, true, ["--check"]⟩ (.ok "/e")
        "linux" "amd64" ⟨[("/a/b", ⟨[1], 5⟩)], 99, [], [], [], [], []⟩
        (fun _ => .ok ⟨200, "200 OK", [7, 8], true, true⟩)
        (.error "exit status 1")).result
        = .error ("Update() failed to apply update: " ++ "exit status 1") ∧
    (Update ⟨"https://x/tool", "/a/b", 1000, true, ["--check"]⟩ (.ok "/e")
        "linux" "amd64" ⟨[("/a/b", ⟨[1], 5⟩)], 99, [], [], [], [], []⟩
        (fun _ => .ok ⟨200, "200 OK", [7, 8], true, true⟩)
        (.error "exit status 1")).fs.find "/a/b"
        = (⟨[("/a/b", ⟨[1], 5⟩)], 99, [], [], [], [], []⟩ : World).fs.find
            "/a/b" ∧
    (Update ⟨"https://x/tool", "/a/b", 1000, true, ["--check"]⟩ (.ok "/e")
        "linux" "amd64" ⟨[("/a/b", ⟨[1], 5⟩)], 99, [], [], [], [], []⟩
        (fun _ => .ok ⟨200, "200 OK", [7, 8], true, true⟩)
        (.error "exit status 1")).fs.find (backupPath "/a/b")
        = (⟨[("/a/b", ⟨[1], 5⟩)], 99, [], [], [], [], []⟩ : World).fs.find
            (backupPath "/a/b") ∧
    (Update ⟨"https://x/tool", "/a/b", 1000, true, ["--check"]⟩ (.ok "/e")
        "linux" "amd64" ⟨[("/a/b", ⟨[1], 5⟩)], 99, [], [], [], [], []⟩
        (fun _ => .ok ⟨200, "200 OK", [7, 8], true, true⟩)
        (.error "exit status 1")).fs.find (downloadPath "/a/b")
        = some ⟨[7, 8], 99⟩ :=
  apply_failure_no_replacement ⟨"https://x/tool", "/a/b", 1000, true,
      ["--check"]⟩
    ⟨"https://x/tool", "/a/b", 1000, true, ["--check"]⟩ (.ok "/e") "linux"
    "amd64" ⟨[("/a/b", ⟨[1], 5⟩)], 99, [], [], [], [], []⟩
    (fun _ => .ok ⟨200, "200 OK", [7, 8], true, true⟩)
    ⟨200, "200 OK", [7, 8], true, true⟩ "exit status 1"
    (by decide) (by decide) (by decide) rfl rfl rfl rfl (by decide)

/-- C6 (confirmed): when the GET request answers with a non-200 status,
`Update` returns an error containing the response status text and the live
binary entry (content and modification time) is unchanged. -/
theorem get_non_200_aborts (u0 u : Updater) (exe : Except String String)
    (goos goarch : String) (w : World)
    (get : String → Except String GetResponse) (resp : GetResponse)
    (applyResult : Except String Unit)
    (hv : checkValidity u0 exe = .ok u)
    (hopen : downloadPath u.Path ∉ w.badOpenPaths)
    (hget : get (updateURL u goos goarch) = .ok resp)
    (hstatus : resp.statusCode ≠ 200) :
    (Update u0 exe goos goarch w get applyResult).result
        = .error ("status not 200 OK: " ++ resp.status) ∧
    (Update u0 exe goos goarch w get applyResult).fs.find u.Path
        = w.fs.find u.Path := by
  have hpd : u.Path ≠ downloadPath u.Path := Ne.symm (downloadPath_ne u.Path)
  unfold Update
  rw [hv]
  simp [hopen, hget, hstatus, FS.find_set, hpd]

/-- Witness for C6: an HTTP 500 during update. -/
theorem get_non_200_aborts_witness :
    (Update ⟨"https://x/tool", "/a/b", 1000, true, []⟩ (.ok "/e") "linux"
        "amd64" ⟨[("/a/b", ⟨[1], 5⟩)], 99, [], [], [], [], []⟩
        (fun _ => .ok ⟨500, "500 Internal Server Error", [], true, true⟩)
        (.ok ())).result
        = .error ("status not 200 OK: " ++ "500 Internal Server Error") ∧
    (Update ⟨"https://x/tool", "/a/b", 1000, true, []⟩ (.ok "/e") "linux"
        "amd64" ⟨[("/a/b", ⟨[1], 5⟩)], 99, [], [], [], [], []⟩
        (fun _ => .ok ⟨500, "500 Internal Server Error", [], true, true⟩)
        (.ok ())).fs.find "/a/b"
        = (⟨[("/a/b", ⟨[1], 5⟩)], 99, [], [], [], [], []⟩ : World).fs.find
            "/a/b" :=
  get_non_200_aborts ⟨"https://x/tool", "/a/b", 1000, true, []⟩
    ⟨"https://x/tool", "/a/b", 1000, true, []⟩ (.ok "/e") "linux" "amd64"
    ⟨[("/a/b", ⟨[1], 5⟩)], 99, [], [], [], [], []⟩
    (fun _ => .ok ⟨500, "500 Internal Server Error", [], true, true⟩)
    ⟨500, "500 Internal Server Error", [], true, true⟩ (.ok ())
    (by decide) (by decide) rfl (by decide)

/-- C2 (confirmed): when `Update` reaches the install phase and every step
succeeds, the final filesystem has the downloaded content (with modification
time `now`) at the target path, the previously live binary's entry at the
backup path, and no entry left at the download path. The backup may or may
not have existed beforehand: its removal ignores "does not exist". -/
theorem install_success (u0 u : Updater) (exe : Except String String)
    (goos goarch : String) (w : World)
    (get : String → Except String GetResponse) (resp : GetResponse)
    (applyResult : Except String Unit) (oldFi : FileInfo)
    (hv : checkValidity u0 exe = .ok u)
    (hopen : downloadPath u.Path ∉ w.badOpenPaths)
    (hget : get (updateURL u goos goarch) = .ok resp)
    (hstatus : resp.statusCode = 200)
    (hcopy : resp.bodyCopyOk = true)
    (hclose : resp.closeOk = true)
    (hfclose : downloadPath u.Path ∉ w.badClosePaths)
    (happly : u.ApplyArgs = [] ∨ applyResult = .ok ())
    (hremove : backupPath u.Path ∉ w.badRemovePaths)
    (hlive : w.fs.find u.Path = some oldFi) :
    (Update u0 exe goos goarch w get applyResult).result = .ok () ∧
    (Update u0 exe goos goarch w get applyResult).fs.find u.Path
        = some ⟨resp.body, w.now⟩ ∧
    (Update u0 exe goos goarch w get applyResult).fs.find (backupPath u.Path)
        = some oldFi ∧
    (Update u0 exe goos goarch w get applyResult).fs.find (downloadPath u.Path)
        = none := by
  have hpd : u.Path ≠ downloadPath u.Path := Ne.symm (downloadPath_ne u.Path)
  have hdb : downloadPath u.Path ≠ backupPath u.Path :=
    downloadPath_ne_backupPath u.Path
  have hbp : backupPath u.Path ≠ u.Path := backupPath_ne u.Path
  have happ : (if u.ApplyArgs.isEmpty then Except.ok () else applyResult)
      = Except.ok () := by
    rcases happly with h | h
    · simp [h]
    · cases hx : u.ApplyArgs.isEmpty <;> simp [h]
  have hdp : downloadPath u.Path ≠ u.Path := downloadPath_ne u.Path
  have hbd : backupPath u.Path ≠ downloadPath u.Path := Ne.symm hdb
  have hpb : u.Path ≠ backupPath u.Path := Ne.symm hbp
  unfold Update
  rw [hv]
  simp only [hopen, hget, hstatus, hcopy, hclose, hfclose, happ, hremove,
    ite_false, ite_true, reduceIte, Bool.not_true, Bool.false_eq_true, ne_eq,
    not_false_eq_true, not_true_eq_false, if_false]
  generalize hfs3 : (((w.fs.set (downloadPath u.Path) ⟨[], w.now⟩).set
      (downloadPath u.Path) ⟨resp.body, w.now⟩).del (backupPath u.Path)) = fs3
  have l1 : fs3.find u.Path = some oldFi := by
    rw [← hfs3, FS.find_del, if_neg hpb, FS.find_set, if_neg hpd,
      FS.find_set, if_neg hpd]
    exact hlive
  have l2 : fs3.find (backupPath u.Path) = none := by
    rw [← hfs3, FS.find_del, if_pos rfl]
  have hlink : fs3.link u.Path (backupPath u.Path)
      = .ok (fs3.set (backupPath u.Path) oldFi) := by
    simp only [FS.link, l1, l2]
  rw [hlink]
  dsimp only
  have l3 : (fs3.set (backupPath u.Path) oldFi).find (downloadPath u.Path)
      = some ⟨resp.body, w.now⟩ := by
    rw [FS.find_set, if_neg hdb, ← hfs3, FS.find_del, if_neg hdb,
      FS.find_set, if_pos rfl]
  have hren : (fs3.set (backupPath u.Path) oldFi).rename
      (downloadPath u.Path) u.Path
      = .ok (((fs3.set (backupPath u.Path) oldFi).del
          (downloadPath u.Path)).set u.Path ⟨resp.body, w.now⟩) := by
    simp only [FS.rename, l3]
  rw [hren]
  dsimp only
  refine ⟨rfl, ?_, ?_, ?_⟩
  · rw [FS.find_set, if_pos rfl]
  · rw [FS.find_set, if_neg hbp, FS.find_del, if_neg hbd,
      FS.find_set, if_pos rfl]
  · rw [FS.find_set, if_neg hdp, FS.find_del, if_pos rfl]


/-- Witness for C2: a successful install over an existing binary. -/
theorem install_success_witness :
    (Update ⟨"https://x/tool", "/a/b", 1000, true, []⟩ (.ok "/e") "linux"
        "amd64" ⟨[("/a/b", ⟨[1], 5⟩)], 99, [], [], [], [], []⟩
        (fun _ => .ok ⟨200, "200 OK", [9, 9], true, true⟩) (.ok ())).result
        = .ok () ∧
    (Update ⟨"https://x/tool", "/a/b", 1000, true, []⟩ (.ok "/e") "linux"
        "amd64" ⟨[("/a/b", ⟨[1], 5⟩)], 99, [], [], [], [], []⟩
        (fun _ => .ok ⟨200, "200 OK", [9, 9], true, true⟩)
        (.ok ())).fs.find "/a/b" = some ⟨[9, 9], 99⟩ ∧
    (Update ⟨"https://x/tool", "/a/b", 1000, true, []⟩ (.ok "/e") "linux"
        "amd64" ⟨[("/a/b", ⟨[1], 5⟩)], 99, [], [], [], [], []⟩
        (fun _ => .ok ⟨200, "200 OK", [9, 9], true, true⟩)
        (.ok ())).fs.find (backupPath "/a/b") = some ⟨[1], 5⟩ ∧
    (Update ⟨"https://x/tool", "/a/b", 1000, true, []⟩ (.ok "/e") "linux"
        "amd64" ⟨[("/a/b", ⟨[1], 5⟩)], 99, [], [], [], [], []⟩
        (fun _ => .ok ⟨200, "200 OK", [9, 9], true, true⟩)
        (.ok ())).fs.find (downloadPath "/a/b") = none :=
  install_success ⟨"https://x/tool", "/a/b", 1000, true, []⟩
    ⟨"https://x/tool", "/a/b", 1000, true, []⟩ (.ok "/e") "linux" "amd64"
    ⟨[("/a/b", ⟨[1], 5⟩)], 99, [], [], [], [], []⟩
    (fun _ => .ok ⟨200, "200 OK", [9, 9], true, true⟩) 
    ⟨200, "200 OK", [9, 9], true, true⟩ (.ok ()) ⟨[1], 5⟩
    (by decide) (by decide) rfl rfl rfl rfl (by decide) (Or.inl rfl)
    (by decide) rfl

/-- C10 (confirmed): `Update` opens the `.download` sibling with truncation
before issuing the GET request: when the open fails nothing is fetched and
the filesystem is untouched; when it succeeds the URL is always fetched,
a GET transport error leaves exactly the truncated (empty, mtime `now`)
download file behind, the stamp file is never touched by `Update`, and any
download file present afterwards was written during this invocation (its
modification time is `now`), so previously downloaded content is destroyed
even when a later step fails. -/
theorem truncate_before_get (u0 u : Updater) (exe : Except String String)
    (goos goarch : String) (w : World)
    (get : String → Except String GetResponse)
    (applyResult : Except String Unit)
    (hv : checkValidity u0 exe = .ok u) :
    (downloadPath u.Path ∈ w.badOpenPaths →
      (Update u0 exe goos goarch w get applyResult).fetched = none ∧
      (Update u0 exe goos goarch w get applyResult).fs = w.fs) ∧
    (downloadPath u.Path ∉ w.badOpenPaths →
      (Update u0 exe goos goarch w get applyResult).fetched
        = some (updateURL u goos goarch)) ∧
    (∀ e, get (updateURL u goos goarch) = .error e →
      downloadPath u.Path ∉ w.badOpenPaths →
      (Update u0 exe goos goarch w get applyResult).result = .error e ∧
      (Update u0 exe goos goarch w get applyResult).fs
        = w.fs.set (downloadPath u.Path) ⟨[], w.now⟩) ∧
    ((Update u0 exe goos goarch w get applyResult).fs.find (stampPath u.Path)
      = w.fs.find (stampPath u.Path)) ∧
    (downloadPath u.Path ∉ w.badOpenPaths →
      ∀ fi, (Update u0 exe goos goarch w get applyResult).fs.find
        (downloadPath u.Path) = some fi → fi.modTime = w.now) := by
  have hpd : u.Path ≠ downloadPath u.Path := Ne.symm (downloadPath_ne u.Path)
  have hdp : downloadPath u.Path ≠ u.Path := downloadPath_ne u.Path
  have hdb : downloadPath u.Path ≠ backupPath u.Path :=
    downloadPath_ne_backupPath u.Path
  have hsd : stampPath u.Path ≠ downloadPath u.Path :=
    stampPath_ne_downloadPath u.Path
  have hsb : stampPath u.Path ≠ backupPath u.Path :=
    stampPath_ne_backupPath u.Path
  have hsp : stampPath u.Path ≠ u.Path := stampPath_ne u.Path
  unfold Update
  rw [hv]
  by_cases h1 : downloadPath u.Path ∈ w.badOpenPaths
  · simp [h1]
  simp only [h1, ite_false, reduceIte, not_false_eq_true, not_true_eq_false,
    forall_true_left, IsEmpty.forall_iff, true_and, false_implies,
    not_false_iff]
  rcases hg : get (updateURL u goos goarch) with e | resp <;> simp only [hg]
  · simp [FS.find_set, hsd]
  by_cases h2 : resp.statusCode = 200
  case neg =>
    simp [h2, FS.find_set, hsd]
  by_cases h3 : resp.bodyCopyOk
  case neg =>
    simp [h2, h3, FS.find_set, hsd]
  by_cases h4 : resp.closeOk
  case neg =>
    simp [h2, h3, h4, FS.find_set, hsd]
  by_cases h5 : downloadPath u.Path ∈ w.badClosePaths
  case pos =>
    simp [h2, h3, h4, h5, FS.find_set, hsd]
  simp only [h2, h3, h4, h5, ite_true, ite_false, reduceIte, Bool.not_true,
    Bool.false_eq_true, if_false, not_false_eq_true, ne_eq,
    not_true_eq_false]
  rcases ha : (if u.ApplyArgs.isEmpty then Except.ok () else applyResult)
      with e | x <;> simp only [ha]
  · simp [FS.find_set, hsd]
  by_cases h6 : backupPath u.Path ∈ w.badRemovePaths
  case pos =>
    simp [h6, FS.find_set, hsd]
  simp only [h6, ite_false, reduceIte, not_false_eq_true]
  rcases hl : FS.link (((w.fs.set (downloadPath u.Path) ⟨[], w.now⟩).set
      (downloadPath u.Path) ⟨resp.body, w.now⟩).del (backupPath u.Path))
      u.Path (backupPath u.Path) with e | fs4 <;> simp only [hl]
  · simp [FS.find_set, FS.find_del, hsd, hsb]
  obtain ⟨fi4, hfind4, hnone4, rfl⟩ := FS.link_ok _ _ _ _ hl
  rcases hr : FS.rename ((((w.fs.set (downloadPath u.Path) ⟨[], w.now⟩).set
      (downloadPath u.Path) ⟨resp.body, w.now⟩).del
      (backupPath u.Path)).set (backupPath u.Path) fi4)
      (downloadPath u.Path) u.Path with e | fs5 <;> simp only [hr]
  · simp [FS.find_set, FS.find_del, hsd, hsb, hdb]
  obtain ⟨fi5, hfind5, rfl⟩ := FS.rename_ok _ _ _ _ hr
  have hfi5 : fi5 = ⟨resp.body, w.now⟩ := by
    rw [FS.find_set, if_neg hdb, FS.find_del, if_neg hdb, FS.find_set,
      if_pos rfl] at hfind5
    injection hfind5 with h
    exact h.symm
  simp [FS.find_set, FS.find_del, hsd, hsb, hsp, hdp, hfi5]


/-- Witness for C10: a GET transport failure right after truncation, with a
stale download file initially present. -/
theorem truncate_before_get_witness :
    (downloadPath "/a/b" ∈
        (⟨[(downloadPath "/a/b", ⟨[3], 1⟩)], 99, [], [], [], [], []⟩ :
          World).badOpenPaths →
      (Update ⟨"https://x/tool", "/a/b", 1000, true, []⟩ (.ok "/e") "linux"
          "amd64" ⟨[(downloadPath "/a/b", ⟨[3], 1⟩)], 99, [], [], [], [], []⟩
          (fun _ => .error "timeout") (.ok ())).fetched = none ∧
      (Update ⟨"https://x/tool", "/a/b", 1000, true, []⟩ (.ok "/e") "linux"
          "amd64" ⟨[(downloadPath "/a/b", ⟨[3], 1⟩)], 99, [], [], [], [], []⟩
          (fun _ => .error "timeout") (.ok ())).fs =
        (⟨[(downloadPath "/a/b", ⟨[3], 1⟩)], 99, [], [], [], [], []⟩ :
          World).fs) ∧
    (downloadPath "/a/b" ∉
        (⟨[(downloadPath "/a/b", ⟨[3], 1⟩)], 99, [], [], [], [], []⟩ :
          World).badOpenPaths →
      (Update ⟨"https://x/tool", "/a/b", 1000, true, []⟩ (.ok "/e") "linux"
          "amd64" ⟨[(downloadPath "/a/b", ⟨[3], 1⟩)], 99, [], [], [], [], []⟩
          (fun _ => .error "timeout") (.ok ())).fetched
        = some (updateURL ⟨"https://x/tool", "/a/b", 1000, true, []⟩ "linux"
            "amd64")) ∧
    (∀ e, (fun _ => .error "timeout" : String → Except String GetResponse)
        (updateURL ⟨"https://x/tool", "/a/b", 1000, true, []⟩ "linux" "amd64")
        = .error e →
      downloadPath "/a/b" ∉
        (⟨[(downloadPath "/a/b", ⟨[3], 1⟩)], 99, [], [], [], [], []⟩ :
          World).badOpenPaths →
      (Update ⟨"https://x/tool", "/a/b", 1000, true, []⟩ (.ok "/e") "linux"
          "amd64" ⟨[(downloadPath "/a/b", ⟨[3], 1⟩)], 99, [], [], [], [], []⟩
          (fun _ => .error "timeout") (.ok ())).result = .error e ∧
      (Update ⟨"https://x/tool", "/a/b", 1000, true, []⟩ (.ok "/e") "linux"
          "amd64" ⟨[(downloadPath "/a/b", ⟨[3], 1⟩)], 99, [], [], [], [], []⟩
          (fun _ => .error "timeout") (.ok ())).fs =
        (⟨[(downloadPath "/a/b", ⟨[3], 1⟩)], 99, [], [], [], [], []⟩ :
          World).fs.set (downloadPath "/a/b") ⟨[], 99⟩) ∧
    ((Update ⟨"https://x/tool", "/a/b", 1000, true, []⟩ (.ok "/e") "linux"
        "amd64" ⟨[(downloadPath "/a/b", ⟨[3], 1⟩)], 99, [], [], [], [], []⟩
        (fun _ => .error "timeout") (.ok ())).fs.find (stampPath "/a/b")
      = (⟨[(downloadPath "/a/b", ⟨[3], 1⟩)], 99, [], [], [], [], []⟩ :
          World).fs.find (stampPath "/a/b")) ∧
    (downloadPath "/a/b" ∉
        (⟨[(downloadPath "/a/b", ⟨[3], 1⟩)], 99, [], [], [], [], []⟩ :
          World).badOpenPaths →
      ∀ fi, (Update ⟨"https://x/tool", "/a/b", 1000, true, []⟩ (.ok "/e")
          "linux" "amd64"
          ⟨[(downloadPath "/a/b", ⟨[3], 1⟩)], 99, [], [], [], [], []⟩
          (fun _ => .error "timeout") (.ok ())).fs.find (downloadPath "/a/b")
        = some fi → fi.modTime =
          (⟨[(downloadPath "/a/b", ⟨[3], 1⟩)], 99, [], [], [], [], []⟩ :
            World).now) :=
  truncate_before_get ⟨"https://x/tool", "/a/b", 1000, true, []⟩
    ⟨"https://x/tool", "/a/b", 1000, true, []⟩ (.ok "/e") "linux" "amd64"
    ⟨[(downloadPath "/a/b", ⟨[3], 1⟩)], 99, [], [], [], [], []⟩
    (fun _ => .error "timeout") (.ok ()) (by decide)

end Cliupdater
